import Mathlib

/-!
Verification of the Ethereum economic model core (`model/parts/ethereum.py`):
the network-issuance policy, the EIP-1559 transaction-pricing policy, and the
two state-update functions for ETH price and ETH supply.

Numbers are modelled as rationals.  Python dictionary access is modelled with
`Option`-valued fields and a `getKey` helper returning `Except PyErr`, so a
missing key surfaces as a `keyError` exactly where the source would raise, and
the `assert` statement surfaces as an `assertionError`.
-/

/-- Modelled from the spec: the `Stage` enum from `model/types.py` (not part of
the provided sources), "ordered, one of: PROOF_OF_WORK, BEACON_CHAIN, EIP1559,
PROOF_OF_STAKE". -/
inductive Stage where
  | PROOF_OF_WORK
  | BEACON_CHAIN
  | EIP1559
  | PROOF_OF_STAKE
deriving DecidableEq, Repr

namespace constants

/-- Modelled from the spec: `model/constants.py` is not part of the provided
sources; the spec calls this "the smallest-unit conversion constant (Gwei per
ETH)".  One ETH is 10^9 Gwei. -/
def gwei : ℚ := 1000000000

/-- Modelled from the spec: "a fixed number of accounting periods ('epochs')
per simulated day".  One epoch is 32 slots of 12 seconds, hence 225 epochs per
day. -/
def epochs_per_day : ℚ := 225

/-- Modelled from the spec: slots per epoch (accounting periods per epoch) used
in the gas-limit bound `gas_target * ELASTICITY_MULTIPLIER * slots_per_epoch`. -/
def slots_per_epoch : ℚ := 32

end constants

/-- Errors a policy or updater can raise: a missing dictionary key
(Python `KeyError`) or a failed `assert` (Python `AssertionError`). -/
inductive PyErr where
  | keyError (key : String)
  | assertionError (msg : String)
deriving DecidableEq, Repr

/-- Python dictionary access `d[key]`: returns the value when the key is
present, raises `KeyError` otherwise. -/
def getKey (key : String) : Option α → Except PyErr α
  | some v => Except.ok v
  | none => Except.error (PyErr.keyError key)

/-- The simulation parameters dictionary.  Each recognized key is an `Option`
field; `none` models the key being absent. Stochastic process providers are
functions of `(run, elapsed_time)`. -/
structure Params where
  dt : Option ℚ
  daily_pow_issuance : Option ℚ
  gas_target : Option ℚ
  ELASTICITY_MULTIPLIER : Option ℚ
  BASE_FEE_MAX_CHANGE_DENOMINATOR : Option ℚ
  eip1559_basefee_process : Option (ℚ → ℚ → ℚ)
  eip1559_tip_process : Option (ℚ → ℚ → ℚ)
  daily_transactions_process : Option (ℚ → ℚ → ℚ)
  transaction_average_gas : Option ℚ
  eth_price_process : Option (ℚ → ℚ → ℚ)

/-- A parameters dictionary with every key missing. -/
def emptyParams : Params :=
  ⟨none, none, none, none, none, none, none, none, none, none⟩

/-- The previous-state dictionary: the fields of the simulation state read or
written by `model/parts/ethereum.py`.  `none` models an absent key. -/
structure StateVars where
  run : Option ℚ
  timestep : Option ℚ
  stage : Option Stage
  amount_slashed : Option ℚ
  total_basefee : Option ℚ
  total_tips_to_validators : Option ℚ
  total_online_validator_rewards : Option ℚ
  basefee : Option ℚ
  eth_price : Option ℚ
  eth_supply : Option ℚ

/-- The merged policy-input dictionary consumed by the state updaters; only
`network_issuance` is read by the functions modelled here. -/
structure PolicyInput where
  network_issuance : Option ℚ

/-- Result dictionary of `policy_network_issuance`. -/
structure IssuanceOutput where
  network_issuance : ℚ
  pow_issuance : ℚ
deriving DecidableEq, Repr

/-- Result dictionary of `policy_eip1559_transaction_pricing`. -/
structure TxPricingOutput where
  basefee : ℚ
  total_basefee : ℚ
  total_tips_to_miners : ℚ
  total_tips_to_validators : ℚ
deriving DecidableEq, Repr

/-- Embedding of `policy_network_issuance` (`model/parts/ethereum.py`
lines 13-46). -/
def policy_network_issuance (params : Params) (substep : ℕ)
    (state_history : List StateVars) (previous_state : StateVars) :
    Except PyErr IssuanceOutput := do
  let dt ← getKey "dt" params.dt
  let daily_pow_issuance ← getKey "daily_pow_issuance" params.daily_pow_issuance
  let stage ← getKey "stage" previous_state.stage
  let amount_slashed ← getKey "amount_slashed" previous_state.amount_slashed
  let total_basefee ← getKey "total_basefee" previous_state.total_basefee
  let total_tips_to_validators ←
    getKey "total_tips_to_validators" previous_state.total_tips_to_validators
  let total_online_validator_rewards ←
    getKey "total_online_validator_rewards" previous_state.total_online_validator_rewards
  let network_issuance :=
    ((total_online_validator_rewards - total_tips_to_validators)
        - amount_slashed
        - total_basefee)
      / constants.gwei
  let pow_issuance :=
    if stage = Stage.BEACON_CHAIN ∨ stage = Stage.EIP1559 then
      daily_pow_issuance / constants.epochs_per_day
    else 0
  pure { network_issuance := network_issuance + pow_issuance * dt
         pow_issuance := pow_issuance }

/-- Embedding of `policy_eip1559_transaction_pricing`
(`model/parts/ethereum.py` lines 49-126).  The commented-out base-fee-change
assertion of the source (lines 88-94) is likewise absent here. -/
def policy_eip1559_transaction_pricing (params : Params) (substep : ℕ)
    (state_history : List StateVars) (previous_state : StateVars) :
    Except PyErr TxPricingOutput := do
  let stage ← getKey "stage" previous_state.stage
  if stage = Stage.EIP1559 ∨ stage = Stage.PROOF_OF_STAKE then
    let dt ← getKey "dt" params.dt
    let gas_target ← getKey "gas_target" params.gas_target
    let ELASTICITY_MULTIPLIER ←
      getKey "ELASTICITY_MULTIPLIER" params.ELASTICITY_MULTIPLIER
    let BASE_FEE_MAX_CHANGE_DENOMINATOR ←
      getKey "BASE_FEE_MAX_CHANGE_DENOMINATOR" params.BASE_FEE_MAX_CHANGE_DENOMINATOR
    let eip1559_basefee_process ←
      getKey "eip1559_basefee_process" params.eip1559_basefee_process
    let eip1559_tip_process ← getKey "eip1559_tip_process" params.eip1559_tip_process
    let daily_transactions_process ←
      getKey "daily_transactions_process" params.daily_transactions_process
    let transaction_average_gas ←
      getKey "transaction_average_gas" params.transaction_average_gas
    let run ← getKey "run" previous_state.run
    let timestep ← getKey "timestep" previous_state.timestep
    let previous_basefee ← getKey "basefee" previous_state.basefee
    let basefee := eip1559_basefee_process run (timestep * dt)
    let avg_tip_amount := eip1559_tip_process run (timestep * dt)
    let transactions_per_day := daily_transactions_process run (timestep * dt)
    let transactions_per_epoch := transactions_per_day / constants.epochs_per_day
    let gas_used := transactions_per_epoch * transaction_average_gas
    let total_basefee := gas_used * basefee
    let total_tips := gas_used * avg_tip_amount
    let tips_split :=
      if stage = Stage.PROOF_OF_STAKE then ((0 : ℚ), total_tips)
      else (total_tips, (0 : ℚ))
    let total_tips_to_miners := tips_split.1
    let total_tips_to_validators := tips_split.2
    if gas_used ≤ gas_target * ELASTICITY_MULTIPLIER * constants.slots_per_epoch then
      pure { basefee := basefee
             total_basefee := total_basefee * dt
             total_tips_to_miners := total_tips_to_miners * dt
             total_tips_to_validators := total_tips_to_validators * dt }
    else
      throw (PyErr.assertionError "invalid block: too much gas used")
  else
    pure { basefee := 0
           total_basefee := 0
           total_tips_to_miners := 0
           total_tips_to_validators := 0 }

/-- Embedding of `update_eth_price` (`model/parts/ethereum.py` lines 129-143). -/
def update_eth_price (params : Params) (substep : ℕ)
    (state_history : List StateVars) (previous_state : StateVars)
    (policy_input : PolicyInput) : Except PyErr (String × ℚ) := do
  let dt ← getKey "dt" params.dt
  let eth_price_process ← getKey "eth_price_process" params.eth_price_process
  let run ← getKey "run" previous_state.run
  let timestep ← getKey "timestep" previous_state.timestep
  let eth_price_sample := eth_price_process run (timestep * dt)
  pure ("eth_price", eth_price_sample)

/-- Embedding of `update_eth_supply` (`model/parts/ethereum.py` lines 146-155). -/
def update_eth_supply (params : Params) (substep : ℕ)
    (state_history : List StateVars) (previous_state : StateVars)
    (policy_input : PolicyInput) : Except PyErr (String × ℚ) := do
  let network_issuance ← getKey "network_issuance" policy_input.network_issuance
  let eth_supply ← getKey "eth_supply" previous_state.eth_supply
  pure ("eth_supply", eth_supply + network_issuance)

/-- A state carrying only an ETH supply, used to iterate `update_eth_supply`
across timesteps. -/
def supplyState (s : ℚ) : StateVars :=
  ⟨none, none, none, none, none, none, none, none, none, some s⟩

/-- One application of `update_eth_supply` to a supply `s` and an issuance `i`,
extracting the updated supply value. -/
def supplyStep (s i : ℚ) : ℚ :=
  match update_eth_supply emptyParams 0 [] (supplyState s) ⟨some i⟩ with
  | Except.ok (_, v) => v
  | Except.error _ => 0

/-- Iterating `update_eth_supply` over a whole sequence of issuance values,
starting from supply `S0`. -/
def iterSupply (S0 : ℚ) (issuances : List ℚ) : ℚ :=
  issuances.foldl supplyStep S0

theorem getKey_some (k : String) (v : α) : getKey k (some v) = Except.ok v := rfl

theorem ok_bind (a : α) (f : α → Except PyErr β) :
    (Except.ok a : Except PyErr α) >>= f = f a := rfl

/-- Characterization of the fee-pricing policy on a fee-market-active,
fully-populated input: it reduces to a single gas-limit guard around the
returned record.  Shared by the theorems about the active branch. -/
theorem eip1559_active_eq (params : Params) (substep : ℕ) (hist : List StateVars)
    (st : StateVars) (stage : Stage)
    (dt gt em den tavg r t pbf : ℚ) (fB fT fD : ℚ → ℚ → ℚ)
    (hstage : st.stage = some stage)
    (hactive : stage = Stage.EIP1559 ∨ stage = Stage.PROOF_OF_STAKE)
    (hdt : params.dt = some dt)
    (hgt : params.gas_target = some gt)
    (hem : params.ELASTICITY_MULTIPLIER = some em)
    (hden : params.BASE_FEE_MAX_CHANGE_DENOMINATOR = some den)
    (hfB : params.eip1559_basefee_process = some fB)
    (hfT : params.eip1559_tip_process = some fT)
    (hfD : params.daily_transactions_process = some fD)
    (htavg : params.transaction_average_gas = some tavg)
    (hr : st.run = some r) (ht : st.timestep = some t)
    (hpbf : st.basefee = some pbf) :
    policy_eip1559_transaction_pricing params substep hist st =
      (let basefee := fB r (t * dt)
       let gas_used := fD r (t * dt) / constants.epochs_per_day * tavg
       let total_tips := gas_used * fT r (t * dt)
       let tips_split :=
         if stage = Stage.PROOF_OF_STAKE then ((0 : ℚ), total_tips)
         else (total_tips, (0 : ℚ))
       if gas_used ≤ gt * em * constants.slots_per_epoch then
         Except.ok ⟨basefee, gas_used * basefee * dt, tips_split.1 * dt,
           tips_split.2 * dt⟩
       else
         Except.error (PyErr.assertionError "invalid block: too much gas used")) := by
  obtain ⟨p1, p2, p3, p4, p5, p6, p7, p8, p9, p10⟩ := params
  obtain ⟨s1, s2, s3, s4, s5, s6, s7, s8, s9, s10⟩ := st
  simp only at hstage hdt hgt hem hden hfB hfT hfD htavg hr ht hpbf
  subst hstage hdt hgt hem hden hfB hfT hfD htavg hr ht hpbf
  rcases hactive with h | h <;> subst h <;> rfl

/-- Claim C1: on a well-formed input the issuance policy returns
`network_issuance` equal to
`((total_online_validator_rewards - total_tips_to_validators) - amount_slashed
- total_basefee) / gwei` plus `pow_issuance * dt`, the four aggregates taken
from the previous state. -/
theorem policy_network_issuance_correct (params : Params) (substep : ℕ)
    (hist : List StateVars) (st : StateVars) (dt daily : ℚ) (stage : Stage)
    (slashed fee tips rewards : ℚ)
    (hdt : params.dt = some dt) (hdaily : params.daily_pow_issuance = some daily)
    (hstage : st.stage = some stage) (hsl : st.amount_slashed = some slashed)
    (hfee : st.total_basefee = some fee)
    (htips : st.total_tips_to_validators = some tips)
    (hrew : st.total_online_validator_rewards = some rewards) :
    policy_network_issuance params substep hist st =
      Except.ok
        { network_issuance :=
            ((rewards - tips) - slashed - fee) / constants.gwei +
              (if stage = Stage.BEACON_CHAIN ∨ stage = Stage.EIP1559 then
                daily / constants.epochs_per_day
              else 0) * dt
          pow_issuance :=
            if stage = Stage.BEACON_CHAIN ∨ stage = Stage.EIP1559 then
              daily / constants.epochs_per_day
            else 0 } := by
  obtain ⟨p1, p2, p3, p4, p5, p6, p7, p8, p9, p10⟩ := params
  obtain ⟨s1, s2, s3, s4, s5, s6, s7, s8, s9, s10⟩ := st
  simp only at hdt hdaily hstage hsl hfee htips hrew
  subst hdt hdaily hstage hsl hfee htips hrew
  rfl

/-- Witness for C1 at a concrete input. -/
theorem policy_network_issuance_correct_witness :
    policy_network_issuance
      ⟨some 1, some 5, none, none, none, none, none, none, none, none⟩ 0 []
      ⟨none, none, some Stage.BEACON_CHAIN, some 3, some 2, some 4, some 10,
        none, none, none⟩ =
      Except.ok ⟨1 / constants.gwei + 5 / constants.epochs_per_day,
        5 / constants.epochs_per_day⟩ := by
  have h := policy_network_issuance_correct
    ⟨some 1, some 5, none, none, none, none, none, none, none, none⟩ 0 []
    ⟨none, none, some Stage.BEACON_CHAIN, some 3, some 2, some 4, some 10,
      none, none, none⟩ 1 5 Stage.BEACON_CHAIN 3 2 4 10
    rfl rfl rfl rfl rfl rfl rfl
  norm_num at h
  convert h using 4
  norm_num

/-- Claim C2: when the previous stage is neither EIP1559 nor PROOF_OF_STAKE,
the fee-pricing policy returns all four fields as exactly zero, and it does so
for every parameters dictionary whatsoever — in particular the result does not
depend on the stochastic process providers, so no sampling occurs. -/
theorem eip1559_inactive_zero (params₁ params₂ : Params) (substep : ℕ)
    (hist : List StateVars) (st : StateVars) (stage : Stage)
    (hstage : st.stage = some stage)
    (h1 : stage ≠ Stage.EIP1559) (h2 : stage ≠ Stage.PROOF_OF_STAKE) :
    policy_eip1559_transaction_pricing params₁ substep hist st =
      Except.ok ⟨0, 0, 0, 0⟩ ∧
    policy_eip1559_transaction_pricing params₁ substep hist st =
      policy_eip1559_transaction_pricing params₂ substep hist st := by
  obtain ⟨s1, s2, s3, s4, s5, s6, s7, s8, s9, s10⟩ := st
  simp only at hstage
  subst hstage
  cases stage
  · exact ⟨rfl, rfl⟩
  · exact ⟨rfl, rfl⟩
  · exact absurd rfl h1
  · exact absurd rfl h2

/-- Witness for C2: a BEACON_CHAIN state, with fully-populated and with empty
parameters. -/
theorem eip1559_inactive_zero_witness :
    policy_eip1559_transaction_pricing
      ⟨some 1, some 5, some 1, some 2, some 8, some (fun _ _ => 100),
        some (fun _ _ => 2), some (fun _ _ => 225), some 21000,
        some (fun _ _ => 3000)⟩ 0 []
      ⟨some 1, some 1, some Stage.BEACON_CHAIN, some 0, some 0, some 0, some 0,
        some 1, none, none⟩ = Except.ok ⟨0, 0, 0, 0⟩ ∧
    policy_eip1559_transaction_pricing
      ⟨some 1, some 5, some 1, some 2, some 8, some (fun _ _ => 100),
        some (fun _ _ => 2), some (fun _ _ => 225), some 21000,
        some (fun _ _ => 3000)⟩ 0 []
      ⟨some 1, some 1, some Stage.BEACON_CHAIN, some 0, some 0, some 0, some 0,
        some 1, none, none⟩ =
    policy_eip1559_transaction_pricing emptyParams 0 []
      ⟨some 1, some 1, some Stage.BEACON_CHAIN, some 0, some 0, some 0, some 0,
        some 1, none, none⟩ :=
  eip1559_inactive_zero
    ⟨some 1, some 5, some 1, some 2, some 8, some (fun _ _ => 100),
      some (fun _ _ => 2), some (fun _ _ => 225), some 21000,
      some (fun _ _ => 3000)⟩ emptyParams 0 []
    ⟨some 1, some 1, some Stage.BEACON_CHAIN, some 0, some 0, some 0, some 0,
      some 1, none, none⟩ Stage.BEACON_CHAIN rfl (by decide) (by decide)

/-- Claim C3: on a fee-market-active well-formed input whose gas usage is
within the limit, the returned tips are split by stage: under PROOF_OF_STAKE
all tips (`gas_used * sampled_tip * dt`) go to validators and miners get zero;
under EIP1559 the assignment is reversed. -/
theorem eip1559_tips_split (params : Params) (substep : ℕ) (hist : List StateVars)
    (st : StateVars) (stage : Stage)
    (dt gt em den tavg r t pbf : ℚ) (fB fT fD : ℚ → ℚ → ℚ)
    (hstage : st.stage = some stage)
    (hactive : stage = Stage.EIP1559 ∨ stage = Stage.PROOF_OF_STAKE)
    (hdt : params.dt = some dt)
    (hgt : params.gas_target = some gt)
    (hem : params.ELASTICITY_MULTIPLIER = some em)
    (hden : params.BASE_FEE_MAX_CHANGE_DENOMINATOR = some den)
    (hfB : params.eip1559_basefee_process = some fB)
    (hfT : params.eip1559_tip_process = some fT)
    (hfD : params.daily_transactions_process = some fD)
    (htavg : params.transaction_average_gas = some tavg)
    (hr : st.run = some r) (ht : st.timestep = some t)
    (hpbf : st.basefee = some pbf)
    (hgas : fD r (t * dt) / constants.epochs_per_day * tavg ≤
      gt * em * constants.slots_per_epoch) :
    (stage = Stage.PROOF_OF_STAKE →
      policy_eip1559_transaction_pricing params substep hist st =
        Except.ok ⟨fB r (t * dt),
          fD r (t * dt) / constants.epochs_per_day * tavg * fB r (t * dt) * dt,
          0,
          fD r (t * dt) / constants.epochs_per_day * tavg * fT r (t * dt) * dt⟩) ∧
    (stage = Stage.EIP1559 →
      policy_eip1559_transaction_pricing params substep hist st =
        Except.ok ⟨fB r (t * dt),
          fD r (t * dt) / constants.epochs_per_day * tavg * fB r (t * dt) * dt,
          fD r (t * dt) / constants.epochs_per_day * tavg * fT r (t * dt) * dt,
          0⟩) := by
  rw [eip1559_active_eq params substep hist st stage dt gt em den tavg r t pbf
    fB fT fD hstage hactive hdt hgt hem hden hfB hfT hfD htavg hr ht hpbf]
  simp only
  rw [if_pos hgas]
  constructor
  · intro h
    subst h
    simp
  · intro h
    subst h
    simp

/-- Witness for C3 at a concrete PROOF_OF_STAKE input. -/
theorem eip1559_tips_split_witness :
    policy_eip1559_transaction_pricing
      ⟨some 1, none, some 1, some 1, some 8, some (fun _ _ => 100),
        some (fun _ _ => 2), some (fun _ _ => 450), some 10, none⟩ 0 []
      ⟨some 1, some 1, some Stage.PROOF_OF_STAKE, none, none, none, none,
        some 90, none, none⟩ =
      Except.ok ⟨100, 2000, 0, 40⟩ := by
  have h := (eip1559_tips_split
    ⟨some 1, none, some 1, some 1, some 8, some (fun _ _ => 100),
      some (fun _ _ => 2), some (fun _ _ => 450), some 10, none⟩ 0 []
    ⟨some 1, some 1, some Stage.PROOF_OF_STAKE, none, none, none, none,
      some 90, none, none⟩ Stage.PROOF_OF_STAKE
    1 1 1 8 10 1 1 90 (fun _ _ => 100) (fun _ _ => 2) (fun _ _ => 450)
    rfl (Or.inr rfl) rfl rfl rfl rfl rfl rfl rfl rfl rfl rfl rfl
    (by norm_num [constants.epochs_per_day, constants.slots_per_epoch])).1 rfl
  norm_num [constants.epochs_per_day] at h
  convert h using 3

/-- Claim C4: on a fee-market-active well-formed input the fee-pricing policy
raises the fatal "invalid block: too much gas used" assertion exactly when
`gas_used` strictly exceeds `gas_target * ELASTICITY_MULTIPLIER *
slots_per_epoch`, and returns normally whenever `gas_used` is at or below the
bound. -/
theorem eip1559_gas_limit_check (params : Params) (substep : ℕ)
    (hist : List StateVars) (st : StateVars) (stage : Stage)
    (dt gt em den tavg r t pbf : ℚ) (fB fT fD : ℚ → ℚ → ℚ)
    (hstage : st.stage = some stage)
    (hactive : stage = Stage.EIP1559 ∨ stage = Stage.PROOF_OF_STAKE)
    (hdt : params.dt = some dt)
    (hgt : params.gas_target = some gt)
    (hem : params.ELASTICITY_MULTIPLIER = some em)
    (hden : params.BASE_FEE_MAX_CHANGE_DENOMINATOR = some den)
    (hfB : params.eip1559_basefee_process = some fB)
    (hfT : params.eip1559_tip_process = some fT)
    (hfD : params.daily_transactions_process = some fD)
    (htavg : params.transaction_average_gas = some tavg)
    (hr : st.run = some r) (ht : st.timestep = some t)
    (hpbf : st.basefee = some pbf) :
    (policy_eip1559_transaction_pricing params substep hist st =
        Except.error (PyErr.assertionError "invalid block: too much gas used") ↔
      gt * em * constants.slots_per_epoch <
        fD r (t * dt) / constants.epochs_per_day * tavg) ∧
    (fD r (t * dt) / constants.epochs_per_day * tavg ≤
        gt * em * constants.slots_per_epoch →
      (policy_eip1559_transaction_pricing params substep hist st).isOk = true) := by
  rw [eip1559_active_eq params substep hist st stage dt gt em den tavg r t pbf
    fB fT fD hstage hactive hdt hgt hem hden hfB hfT hfD htavg hr ht hpbf]
  simp only
  constructor
  · constructor
    · intro h
      by_contra hlt
      rw [not_lt] at hlt
      rw [if_pos hlt] at h
      exact Except.noConfusion h
    · intro hgt2
      rw [if_neg (not_le.mpr hgt2)]
  · intro hle
    rw [if_pos hle]
    rfl

/-- Witness for C4: with `gas_target = 1`, `ELASTICITY_MULTIPLIER = 1` the
bound is 32 gas; a sampled load of exactly 32 gas returns normally, a load of
33 gas fails the assertion. -/
theorem eip1559_gas_limit_check_witness :
    (policy_eip1559_transaction_pricing
      ⟨some 1, none, some 1, some 1, some 8, some (fun _ _ => 100),
        some (fun _ _ => 2), some (fun _ _ => 7200), some 1, none⟩ 0 []
      ⟨some 1, some 1, some Stage.EIP1559, none, none, none, none,
        some 90, none, none⟩).isOk = true ∧
    policy_eip1559_transaction_pricing
      ⟨some 1, none, some 1, some 1, some 8, some (fun _ _ => 100),
        some (fun _ _ => 2), some (fun _ _ => 7425), some 1, none⟩ 0 []
      ⟨some 1, some 1, some Stage.EIP1559, none, none, none, none,
        some 90, none, none⟩ =
      Except.error (PyErr.assertionError "invalid block: too much gas used") :=
  ⟨(eip1559_gas_limit_check
      ⟨some 1, none, some 1, some 1, some 8, some (fun _ _ => 100),
        some (fun _ _ => 2), some (fun _ _ => 7200), some 1, none⟩ 0 []
      ⟨some 1, some 1, some Stage.EIP1559, none, none, none, none,
        some 90, none, none⟩ Stage.EIP1559
      1 1 1 8 1 1 1 90 (fun _ _ => 100) (fun _ _ => 2) (fun _ _ => 7200)
      rfl (Or.inl rfl) rfl rfl rfl rfl rfl rfl rfl rfl rfl rfl rfl).2
      (by norm_num [constants.epochs_per_day, constants.slots_per_epoch]),
    (eip1559_gas_limit_check
      ⟨some 1, none, some 1, some 1, some 8, some (fun _ _ => 100),
        some (fun _ _ => 2), some (fun _ _ => 7425), some 1, none⟩ 0 []
      ⟨some 1, some 1, some Stage.EIP1559, none, none, none, none,
        some 90, none, none⟩ Stage.EIP1559
      1 1 1 8 1 1 1 90 (fun _ _ => 100) (fun _ _ => 2) (fun _ _ => 7425)
      rfl (Or.inl rfl) rfl rfl rfl rfl rfl rfl rfl rfl rfl rfl rfl).1.mpr
      (by norm_num [constants.epochs_per_day, constants.slots_per_epoch])⟩

/-- Counterexample to claim C5 as stated: a concrete fee-market-active input
at `timestep = 2 > 1` whose freshly sampled basefee (10000) differs from the
previous basefee (100) by a factor of 99 — far beyond
`slots_per_epoch / BASE_FEE_MAX_CHANGE_DENOMINATOR = 32 / 8 = 4` — yet the
policy returns normally instead of signalling an invariant violation: the
bound-enforcing assertion is commented out in the source (lines 88-94). -/
theorem eip1559_basefee_bound_unenforced_cex :
    (1 : ℚ) < 2 ∧
    |(10000 : ℚ) - 100| / 100 > constants.slots_per_epoch / 8 ∧
    policy_eip1559_transaction_pricing
      ⟨some 1, none, some 1, some 1, some 8, some (fun _ _ => 10000),
        some (fun _ _ => 1), some (fun _ _ => 225), some 1, none⟩ 0 []
      ⟨some 1, some 2, some Stage.EIP1559, none, none, none, none, some 100,
        none, none⟩ =
      Except.ok ⟨10000, 10000, 1, 0⟩ := by
  refine ⟨by norm_num, by norm_num [constants.slots_per_epoch], ?_⟩
  simp only [policy_eip1559_transaction_pricing, getKey_some, ok_bind]
  norm_num [constants.epochs_per_day, constants.slots_per_epoch]
  rfl

/-- Claim C5 as amended: the fee-pricing policy does not enforce the
basefee-change bound at runtime (the assertion is commented out in the
source); an execution after the first timestep whose sampled basefee violates
the bound still returns normally — provided the gas-limit check passes — with
the sampled basefee passed through unclamped. -/
theorem eip1559_basefee_passthrough (params : Params) (substep : ℕ)
    (hist : List StateVars) (st : StateVars) (stage : Stage)
    (dt gt em den tavg r t pbf : ℚ) (fB fT fD : ℚ → ℚ → ℚ)
    (hstage : st.stage = some stage)
    (hactive : stage = Stage.EIP1559 ∨ stage = Stage.PROOF_OF_STAKE)
    (hdt : params.dt = some dt)
    (hgt : params.gas_target = some gt)
    (hem : params.ELASTICITY_MULTIPLIER = some em)
    (hden : params.BASE_FEE_MAX_CHANGE_DENOMINATOR = some den)
    (hfB : params.eip1559_basefee_process = some fB)
    (hfT : params.eip1559_tip_process = some fT)
    (hfD : params.daily_transactions_process = some fD)
    (htavg : params.transaction_average_gas = some tavg)
    (hr : st.run = some r) (ht : st.timestep = some t)
    (hpbf : st.basefee = some pbf)
    (ht1 : 1 < t)
    (hviol : |fB r (t * dt) - pbf| / pbf > constants.slots_per_epoch / den)
    (hgas : fD r (t * dt) / constants.epochs_per_day * tavg ≤
      gt * em * constants.slots_per_epoch) :
    (policy_eip1559_transaction_pricing params substep hist st).isOk = true ∧
    Except.map TxPricingOutput.basefee
        (policy_eip1559_transaction_pricing params substep hist st) =
      Except.ok (fB r (t * dt)) := by
  rw [eip1559_active_eq params substep hist st stage dt gt em den tavg r t pbf
    fB fT fD hstage hactive hdt hgt hem hden hfB hfT hfD htavg hr ht hpbf]
  simp only
  rw [if_pos hgas]
  exact ⟨rfl, rfl⟩

/-- Witness for the amended C5 at the concrete bound-violating input of the
counterexample. -/
theorem eip1559_basefee_passthrough_witness :
    (policy_eip1559_transaction_pricing
      ⟨some 1, none, some 1, some 1, some 8, some (fun _ _ => 10000),
        some (fun _ _ => 1), some (fun _ _ => 225), some 1, none⟩ 0 []
      ⟨some 1, some 2, some Stage.EIP1559, none, none, none, none, some 100,
        none, none⟩).isOk = true ∧
    Except.map TxPricingOutput.basefee
        (policy_eip1559_transaction_pricing
          ⟨some 1, none, some 1, some 1, some 8, some (fun _ _ => 10000),
            some (fun _ _ => 1), some (fun _ _ => 225), some 1, none⟩ 0 []
          ⟨some 1, some 2, some Stage.EIP1559, none, none, none, none,
            some 100, none, none⟩) =
      Except.ok 10000 :=
  eip1559_basefee_passthrough
    ⟨some 1, none, some 1, some 1, some 8, some (fun _ _ => 10000),
      some (fun _ _ => 1), some (fun _ _ => 225), some 1, none⟩ 0 []
    ⟨some 1, some 2, some Stage.EIP1559, none, none, none, none, some 100,
      none, none⟩ Stage.EIP1559
    1 1 1 8 1 1 2 100 (fun _ _ => 10000) (fun _ _ => 1) (fun _ _ => 225)
    rfl (Or.inl rfl) rfl rfl rfl rfl rfl rfl rfl rfl rfl rfl rfl
    (by norm_num) (by norm_num [constants.slots_per_epoch])
    (by norm_num [constants.epochs_per_day, constants.slots_per_epoch])

/-- Claim C6: on a well-formed input the issuance policy returns
`pow_issuance = daily_pow_issuance / epochs_per_day` when the stage is
BEACON_CHAIN or EIP1559, and `pow_issuance = 0` for every other stage. -/
theorem policy_network_issuance_pow (params : Params) (substep : ℕ)
    (hist : List StateVars) (st : StateVars) (dt daily : ℚ) (stage : Stage)
    (slashed fee tips rewards : ℚ)
    (hdt : params.dt = some dt) (hdaily : params.daily_pow_issuance = some daily)
    (hstage : st.stage = some stage) (hsl : st.amount_slashed = some slashed)
    (hfee : st.total_basefee = some fee)
    (htips : st.total_tips_to_validators = some tips)
    (hrew : st.total_online_validator_rewards = some rewards) :
    (stage = Stage.BEACON_CHAIN ∨ stage = Stage.EIP1559 →
      Except.map IssuanceOutput.pow_issuance
          (policy_network_issuance params substep hist st) =
        Except.ok (daily / constants.epochs_per_day)) ∧
    (stage ≠ Stage.BEACON_CHAIN ∧ stage ≠ Stage.EIP1559 →
      Except.map IssuanceOutput.pow_issuance
          (policy_network_issuance params substep hist st) =
        Except.ok 0) := by
  obtain ⟨p1, p2, p3, p4, p5, p6, p7, p8, p9, p10⟩ := params
  obtain ⟨s1, s2, s3, s4, s5, s6, s7, s8, s9, s10⟩ := st
  simp only at hdt hdaily hstage hsl hfee htips hrew
  subst hdt hdaily hstage hsl hfee htips hrew
  constructor
  · rintro (h | h) <;> subst h <;> rfl
  · rintro ⟨h1, h2⟩
    cases stage
    · rfl
    · exact absurd rfl h1
    · exact absurd rfl h2
    · rfl

/-- Witness for C6: the BEACON_CHAIN stage yields
`daily_pow_issuance / epochs_per_day`, the PROOF_OF_STAKE stage yields 0. -/
theorem policy_network_issuance_pow_witness :
    Except.map IssuanceOutput.pow_issuance
        (policy_network_issuance
          ⟨some 1, some 5, none, none, none, none, none, none, none, none⟩ 0 []
          ⟨none, none, some Stage.BEACON_CHAIN, some 3, some 2, some 4, some 10,
            none, none, none⟩) =
      Except.ok (5 / constants.epochs_per_day) ∧
    Except.map IssuanceOutput.pow_issuance
        (policy_network_issuance
          ⟨some 1, some 5, none, none, none, none, none, none, none, none⟩ 0 []
          ⟨none, none, some Stage.PROOF_OF_STAKE, some 3, some 2, some 4,
            some 10, none, none, none⟩) =
      Except.ok 0 :=
  ⟨(policy_network_issuance_pow
      ⟨some 1, some 5, none, none, none, none, none, none, none, none⟩ 0 []
      ⟨none, none, some Stage.BEACON_CHAIN, some 3, some 2, some 4, some 10,
        none, none, none⟩ 1 5 Stage.BEACON_CHAIN 3 2 4 10
      rfl rfl rfl rfl rfl rfl rfl).1 (Or.inl rfl),
    (policy_network_issuance_pow
      ⟨some 1, some 5, none, none, none, none, none, none, none, none⟩ 0 []
      ⟨none, none, some Stage.PROOF_OF_STAKE, some 3, some 2, some 4, some 10,
        none, none, none⟩ 1 5 Stage.PROOF_OF_STAKE 3 2 4 10
      rfl rfl rfl rfl rfl rfl rfl).2 ⟨by decide, by decide⟩⟩

/-- Claim C7: the supply updater returns exactly
`previous eth_supply + network_issuance`; iterating it over a sequence of
issuance values adds their sum to the initial supply, independent of
grouping. -/
theorem update_eth_supply_additive :
    (∀ (params : Params) (substep : ℕ) (hist : List StateVars)
        (st : StateVars) (pi : PolicyInput) (s i : ℚ),
      st.eth_supply = some s → pi.network_issuance = some i →
      update_eth_supply params substep hist st pi =
        Except.ok ("eth_supply", s + i)) ∧
    (∀ (S0 : ℚ) (l : List ℚ), iterSupply S0 l = S0 + l.sum) ∧
    (∀ (S0 : ℚ) (l1 l2 : List ℚ),
      iterSupply S0 (l1 ++ l2) = iterSupply (iterSupply S0 l1) l2) := by
  refine ⟨?_, ?_, ?_⟩
  · intro params substep hist st pi s i hs hi
    obtain ⟨r, t, sg, a, tb, tv, re, bf, ep, es⟩ := st
    obtain ⟨ni⟩ := pi
    simp only at hs hi
    subst hs hi
    rfl
  · intro S0 l
    induction l generalizing S0 with
    | nil => simp [iterSupply]
    | cons i l ih =>
      have hstep : supplyStep S0 i = S0 + i := rfl
      simp only [iterSupply, List.foldl_cons, List.sum_cons] at ih ⊢
      rw [hstep, ih]
      ring
  · intro S0 l1 l2
    simp [iterSupply, List.foldl_append]

/-- Witness for C7: one concrete step and a concrete three-step iteration. -/
theorem update_eth_supply_additive_witness :
    update_eth_supply emptyParams 0 [] (supplyState 5) ⟨some 3⟩ =
      Except.ok ("eth_supply", 8) ∧
    iterSupply 100 [1, 2, 3] = 106 := by
  constructor
  · have h := update_eth_supply_additive.1 emptyParams 0 [] (supplyState 5)
      ⟨some 3⟩ 5 3 rfl rfl
    norm_num at h
    exact h
  · have h := update_eth_supply_additive.2.1 100 [1, 2, 3]
    norm_num at h
    exact h

/-- Claim C8: the price updater returns exactly
`eth_price_process run (timestep * dt)`, independent of the policy-input
mapping and of the previous `eth_price` value. -/
theorem update_eth_price_passthrough (params : Params) (substep : ℕ)
    (hist : List StateVars) (st : StateVars) (pi : PolicyInput)
    (f : ℚ → ℚ → ℚ) (d r t : ℚ)
    (hf : params.eth_price_process = some f) (hd : params.dt = some d)
    (hr : st.run = some r) (ht : st.timestep = some t) :
    update_eth_price params substep hist st pi =
      Except.ok ("eth_price", f r (t * d)) ∧
    (∀ pi2 : PolicyInput, update_eth_price params substep hist st pi2 =
      update_eth_price params substep hist st pi) ∧
    (∀ p2 : Option ℚ,
      update_eth_price params substep hist { st with eth_price := p2 } pi =
        update_eth_price params substep hist st pi) := by
  obtain ⟨p1, p2x, p3, p4, p5, p6, p7, p8, p9, p10⟩ := params
  obtain ⟨s1, s2, s3, s4, s5, s6, s7, s8, s9, s10⟩ := st
  simp only at hf hd hr ht
  subst hf hd hr ht
  exact ⟨rfl, fun _ => rfl, fun _ => rfl⟩

/-- Witness for C8 at a concrete input: the sampled price is returned
verbatim. -/
theorem update_eth_price_passthrough_witness :
    update_eth_price
      ⟨some 1, none, none, none, none, none, none, none, none,
        some (fun a b => a + b)⟩ 0 []
      ⟨some 2, some 3, none, none, none, none, none, none, some 42, none⟩
      ⟨some 7⟩ =
      Except.ok ("eth_price", 5) := by
  have h := (update_eth_price_passthrough
    ⟨some 1, none, none, none, none, none, none, none, none,
      some (fun a b => a + b)⟩ 0 []
    ⟨some 2, some 3, none, none, none, none, none, none, some 42, none⟩
    ⟨some 7⟩ (fun a b => a + b) 1 2 3 rfl rfl rfl rfl).1
  norm_num at h
  exact h

/-- Claim C9: when the previous stage is inactive for the fee market, the
fee-pricing policy reads only the stage field: it succeeds with the all-zero
result even when every parameter key is missing (`emptyParams`) and every
other state field is missing, and the result is the same for any two states
agreeing on `stage`. -/
theorem eip1559_inactive_reads_only_stage (substep : ℕ) (hist : List StateVars)
    (st : StateVars) (stage : Stage)
    (hstage : st.stage = some stage)
    (h1 : stage ≠ Stage.EIP1559) (h2 : stage ≠ Stage.PROOF_OF_STAKE) :
    policy_eip1559_transaction_pricing emptyParams substep hist st =
      Except.ok ⟨0, 0, 0, 0⟩ ∧
    (∀ (params : Params) (st2 : StateVars), st2.stage = st.stage →
      policy_eip1559_transaction_pricing params substep hist st2 =
        Except.ok ⟨0, 0, 0, 0⟩) := by
  obtain ⟨s1, s2, s3, s4, s5, s6, s7, s8, s9, s10⟩ := st
  simp only at hstage
  subst hstage
  constructor
  · cases stage
    · rfl
    · rfl
    · exact absurd rfl h1
    · exact absurd rfl h2
  · intro params st2 hst2
    obtain ⟨u1, u2, u3, u4, u5, u6, u7, u8, u9, u10⟩ := st2
    simp only at hst2
    subst hst2
    cases stage
    · rfl
    · rfl
    · exact absurd rfl h1
    · exact absurd rfl h2

/-- Witness for C9: a state holding nothing but `stage = PROOF_OF_WORK`,
evaluated with the empty parameters dictionary. -/
theorem eip1559_inactive_reads_only_stage_witness :
    policy_eip1559_transaction_pricing emptyParams 0 []
      ⟨none, none, some Stage.PROOF_OF_WORK, none, none, none, none, none,
        none, none⟩ = Except.ok ⟨0, 0, 0, 0⟩ :=
  (eip1559_inactive_reads_only_stage 0 []
    ⟨none, none, some Stage.PROOF_OF_WORK, none, none, none, none, none,
      none, none⟩ Stage.PROOF_OF_WORK rfl (by decide) (by decide)).1

/-- Claim C10: on a fee-market-active stage the fee-pricing policy's result
does not depend on the previous state's `basefee` value: two previous states
that differ only in that (present) field produce identical results. -/
theorem eip1559_independent_of_previous_basefee (params : Params) (substep : ℕ)
    (hist : List StateVars) (st : StateVars) (stage : Stage) (b1 b2 : ℚ)
    (hstage : st.stage = some stage)
    (hactive : stage = Stage.EIP1559 ∨ stage = Stage.PROOF_OF_STAKE) :
    policy_eip1559_transaction_pricing params substep hist
        { st with basefee := some b1 } =
      policy_eip1559_transaction_pricing params substep hist
        { st with basefee := some b2 } := rfl

/-- Witness for C10: two fully-populated EIP1559 states differing only in the
previous basefee (100 versus 99999) give the same result. -/
theorem eip1559_independent_of_previous_basefee_witness :
    policy_eip1559_transaction_pricing
      ⟨some 1, none, some 1, some 1, some 8, some (fun _ _ => 100),
        some (fun _ _ => 2), some (fun _ _ => 450), some 10, none⟩ 0 []
      { run := some 1, timestep := some 1, stage := some Stage.EIP1559,
        amount_slashed := none, total_basefee := none,
        total_tips_to_validators := none,
        total_online_validator_rewards := none, basefee := some 100,
        eth_price := none, eth_supply := none } =
    policy_eip1559_transaction_pricing
      ⟨some 1, none, some 1, some 1, some 8, some (fun _ _ => 100),
        some (fun _ _ => 2), some (fun _ _ => 450), some 10, none⟩ 0 []
      { run := some 1, timestep := some 1, stage := some Stage.EIP1559,
        amount_slashed := none, total_basefee := none,
        total_tips_to_validators := none,
        total_online_validator_rewards := none, basefee := some 99999,
        eth_price := none, eth_supply := none } :=
  eip1559_independent_of_previous_basefee
    ⟨some 1, none, some 1, some 1, some 8, some (fun _ _ => 100),
      some (fun _ _ => 2), some (fun _ _ => 450), some 10, none⟩ 0 []
    ⟨some 1, some 1, some Stage.EIP1559, none, none, none, none, some 0,
      none, none⟩ Stage.EIP1559 100 99999 rfl (Or.inl rfl)
